import Mathlib

/-!
Verification development for the Epic template-migration program
(src/production_template_migration.py). The definitions below are a shallow
embedding of the data model and of the migration-relevant functions of that
file; theorems at the end settle the frozen claims about its specification.

Modelling conventions:
* Calendar datetimes are measured in whole days (type Day := Int). Every
  date-valued field the program handles (the start-date custom field
  customfield_10015 and duedate) is a calendar date, so the Python datetimes
  obtained by parsing them are midnights and whole-day arithmetic is exact.
* A raw date-field value is either a string accepted by
  datetime.fromisoformat, denoting some day, or a malformed string; an
  absent, null or empty (falsy) field is represented by none at use sites.
* Python exceptions are modelled by an error type PyErr; a function that can
  raise returns Except PyErr.
* Side effects that only print to the console are dropped, as they are not
  surfaced to the operator.
-/

namespace TemplateMigration

/-- Calendar datetimes in whole days since an arbitrary origin. -/
abbrev Day := Int

/-- Raw value of a date field as delivered by the tracker: a string that
datetime.fromisoformat accepts, denoting day d, or a malformed string. -/
inductive DateStr
  | valid (d : Day)
  | malformed
  deriving DecidableEq, Repr

/-- Result of datetime.fromisoformat applied to a raw date value: the denoted
day, or none when the call raises ValueError. -/
def fromiso : DateStr → Option Day
  | .valid d => some d
  | .malformed => none

/-- Direction tag of a stored link record, mirroring the strings outward and
inward used at source lines 611 to 623. -/
inductive Dir
  | outward
  | inward
  deriving DecidableEq, Repr

/-- Entry of the issuelinks field of a fetched issue. A real entry names the
far endpoint under the key outwardIssue or inwardIssue together with the
link-type name; the third constructor stands for an entry with neither key,
which the if and elif at lines 612 and 618 skip. When the entry on issue A
reads outwardIssue B, the underlying tracker link object has A as its inward
issue and B as its outward issue, and is displayed on A with the outward
description of the type; symmetrically for inwardIssue. -/
inductive RawLink
  | outward (typeName key : String)
  | inward (typeName key : String)
  | other
  deriving DecidableEq, Repr

/-- Snapshot record stored in child_links_map at lines 613 to 623. -/
structure LinkRec where
  type : String
  direction : Dir
  key : String
  deriving DecidableEq, Repr

/-- Field set requested for child issues (source line 196), restricted to the
fields the migration reads. Optional string fields are none when absent or
null; optional date fields are none when absent, null or empty (falsy). -/
structure Fields where
  summary : Option String
  description : Option String
  customfield_10015 : Option DateStr
  duedate : Option DateStr
  issuelinks : List RawLink
  issuetype_name : Option String
  deriving DecidableEq, Repr

/-- A fetched issue: its key and its fields. -/
structure Issue where
  key : String
  fields : Fields
  deriving DecidableEq, Repr

/-- Fields of the source Epic read by the migration handler at lines 557 to
585, via attribute access on the fetched Epic. -/
structure EpicFields where
  summary : Option String
  description : Option String
  customfield_10015 : Option DateStr
  duedate : Option DateStr
  deriving DecidableEq, Repr

/-- An issue type of the destination project (source line 650). -/
structure IssueType where
  name : String
  id : String
  deriving DecidableEq, Repr

/-- Python exceptions raised by the modelled code, and repository-call
failures propagated as exceptions. -/
inductive PyErr
  | apiError (status : Nat) (body : String)
  | unboundLocal (varName : String)
  | typeError
  | valueError
  | unsupportedIssueType (typeName : Option String) (project : String)
  | createFailed (msg : String)
  deriving DecidableEq, Repr

/-- Message text of each modelled exception, as the operator sees it inside
the surfaced error banner. Only the shape matters for the claims: the
UnboundLocalError message mentions the variable name and nothing else, while
the apiError message of rest_api_get carries the raw status and body. -/
def pyErrMsg : PyErr → String
  | .apiError status body => "API error " ++ toString status ++ ": " ++ body
  | .unboundLocal v => "cannot access local variable " ++ v ++ " where it is not associated with a value"
  | .typeError => "unsupported operand type(s) for +: datetime.date and int"
  | .valueError => "Invalid isoformat string"
  | .unsupportedIssueType t p =>
      "Error while migrating " ++ (t.getD "None") ++ " in the project " ++ p
  | .createFailed m => m

/-- Decides whether the character list pat occurs contiguously inside l. -/
def occursIn (pat : List Char) : List Char → Bool
  | [] => pat.isEmpty
  | c :: rest => pat.isPrefixOf (c :: rest) || occursIn pat rest

/-- An HTTP response from the tracker search API: status code, raw text body,
and the decoded issues list of the JSON payload (data.get issues). -/
structure HttpResponse where
  status : Nat
  body : String
  issues : List Issue
  deriving DecidableEq, Repr

/-- Source function rest_api_get (lines 151 to 160): raises a generic
exception carrying the raw status code and response text whenever the status
is 400 or above, and otherwise returns the decoded JSON payload. -/
def rest_api_get (resp : HttpResponse) : Except PyErr (List Issue) :=
  if 400 ≤ resp.status then
    .error (.apiError resp.status resp.body)
  else
    .ok resp.issues

/-- Sort key used by ordre_child_issues (source lines 225 to 233): the parsed
start date, or datetime.max, modelled as the top element, when the field is
missing or empty or when fromisoformat fails. -/
def get_start_date (issue : Issue) : WithTop Day :=
  match issue.fields.customfield_10015 with
  | some s =>
    match fromiso s with
    | some d => (d : WithTop Day)
    | none => ⊤
  | none => ⊤

/-- Source function ordre_child_issues (lines 220 to 235): Python sorted with
the key above. Python sorted is specified as a stable ascending sort, which
insertionSort over the key comparison implements. -/
def ordre_child_issues (issues : List Issue) : List Issue :=
  issues.insertionSort (fun a b => get_start_date a ≤ get_start_date b)

/-- Source function get_jql_template_epic (lines 162 to 189). On a 200
response it returns the decoded issues; on any other status it prints the
status and body to the console only, falls through to line 189, and raises
UnboundLocalError because the local variable data was never assigned. -/
def get_jql_template_epic (resp : HttpResponse) : Except PyErr (List Issue) :=
  if resp.status = 200 then
    .ok resp.issues
  else
    .error (.unboundLocal "data")

/-- Source function get_child_issues_for_epic (lines 191 to 218). On a 200
response it returns the decoded issues sorted by ordre_child_issues; on any
other status it prints the status and body to the console only, reaches line
216, and raises UnboundLocalError on the unassigned local variable data. -/
def get_child_issues_for_epic (resp : HttpResponse) : Except PyErr (List Issue) :=
  if resp.status = 200 then
    .ok (ordre_child_issues resp.issues)
  else
    .error (.unboundLocal "data")

/-- Payload of jira.create_issue for the new Epic (source lines 579 to 586).
The customfield_10015 entry is the operator-chosen date formatted with
strftime; duedate is that date plus epic_duration. -/
structure NewEpicPayload where
  project : String
  summary : Option String
  description : Option String
  issuetype : String
  customfield_10015 : Day
  duedate : Day
  deriving DecidableEq, Repr

/-- Payload of jira.create_issue for a migrated child (source lines 665 to
677). The date entries are present exactly when the corresponding computed
values were truthy. -/
structure ChildPayload where
  project : String
  summary : Option String
  description : Option String
  issuetype_id : String
  customfield_10014 : String
  customfield_10015 : Option Day
  duedate : Option Day
  deriving DecidableEq, Repr

/-- Argument of a jira.create_issue call. -/
inductive Payload
  | epic (p : NewEpicPayload)
  | child (p : ChildPayload)
  deriving DecidableEq, Repr

/-- Argument of a jira.create_issue_link call (source lines 696 and 698):
link-type name, inwardIssue key, outwardIssue key, passed through verbatim to
the REST endpoint. -/
structure LinkCall where
  type : String
  inwardIssue : String
  outwardIssue : String
  deriving DecidableEq, Repr

/-- A mutating repository call issued by the migration handler. -/
inductive RepoCall
  | createIssue (p : Payload)
  | createIssueLink (c : LinkCall)
  deriving DecidableEq, Repr

/-- Environment of one press of the Migrate Template button: the selected
destination project, the operator-chosen new start date, the fetched source
Epic fields, the response of the child search issued at line 599, the issue
types of the destination project, and the behaviour of the two mutating
repository endpoints, each returning the created key or a failure message. -/
structure MigEnv where
  selected_key : String
  new_start_date : Day
  epic_fields : EpicFields
  child_search : HttpResponse
  issue_types : List IssueType
  createIssue : Payload → Except String String
  createIssueLink : LinkCall → Except String Unit

/-- Link snapshot of one child (source lines 609 to 625): each issuelinks
entry is recorded with its type name, its direction seen from the child, and
the far-endpoint key; entries with neither endpoint key are skipped. -/
def stockLinks (links : List RawLink) : List LinkRec :=
  links.filterMap fun
    | .outward t k => some ⟨t, .outward, k⟩
    | .inward t k => some ⟨t, .inward, k⟩
    | .other => none

/-- Dictionary lookup combined with the Python truthiness guards at lines 688
and 693: the result counts only when the key is present and the stored value
is a non-empty string. The two dictionaries built by the handler are keyed by
tracker issue keys, which are unique, so an insertion-ordered association
list with first-match lookup models them exactly. -/
def truthyLookup (m : List (String × String)) (k : String) : Option String :=
  match m.lookup k with
  | some v => if v = "" then none else some v
  | none => none

/-- Issue-type resolution for one child (source lines 649 to 661): linear
scan of the destination issue types for the first one whose name equals the
source type name under Python string equality, which is exact and
case-sensitive; the falsy guard at line 660 also rejects an empty id. -/
def resolveTypeId (types : List IssueType) (name? : Option String) : Option String :=
  match types.find? (fun t => some t.name == name?) with
  | some t => if t.id = "" then none else some t.id
  | none => none

/-- Date plan of one child (source lines 629 to 647), run on the path where
epic_start_dt is a parsed datetime, the only path on which the child loop is
reachable: the pair holds new_child_start and new_child_due. A fromisoformat
failure raises ValueError and aborts the run. -/
def childPlan (newStart epicStart : Day) (ch : Issue) : Except PyErr (Option Day × Option Day) :=
  match ch.fields.customfield_10015 with
  | some s =>
    match fromiso s with
    | none => .error .valueError
    | some cs =>
      let ncs := newStart + (cs - epicStart)
      match ch.fields.duedate with
      | some d =>
        match fromiso d with
        | none => .error .valueError
        | some dd => .ok (some ncs, some (ncs + (dd - cs)))
      | none => .ok (some ncs, none)
  | none => .ok (none, none)

/-- Create payload of one child (source lines 665 to 677), from its resolved
type id and its date plan. -/
def mkChildPayload (env : MigEnv) (newEpicKey tid : String)
    (plan : Option Day × Option Day) (ch : Issue) : ChildPayload :=
  { project := env.selected_key
    summary := ch.fields.summary
    description := ch.fields.description
    issuetype_id := tid
    customfield_10014 := newEpicKey
    customfield_10015 := plan.1
    duedate := plan.2 }

/-- Mutable state of the child loop: the trace of mutating repository calls
issued so far, child_links_map and old_to_new_keys. -/
structure ChildState where
  trace : List RepoCall
  linksMap : List (String × List LinkRec)
  keyMap : List (String × String)
  deriving Repr

/-- One iteration of the child loop (source lines 603 to 684). The link
snapshot is stored first; then the date plan, the type resolution, the create
call and the key-map update follow in source order, any failure aborting the
run with the corresponding exception. -/
def processChild (env : MigEnv) (epicStart : Day) (newEpicKey : String)
    (st : ChildState) (ch : Issue) : ChildState × Option PyErr :=
  let st₁ : ChildState := { st with linksMap := st.linksMap ++ [(ch.key, stockLinks ch.fields.issuelinks)] }
  match childPlan env.new_start_date epicStart ch with
  | .error e => (st₁, some e)
  | .ok plan =>
    match resolveTypeId env.issue_types ch.fields.issuetype_name with
    | none => (st₁, some (.unsupportedIssueType ch.fields.issuetype_name env.selected_key))
    | some tid =>
      let pay := mkChildPayload env newEpicKey tid plan ch
      let st₂ : ChildState := { st₁ with trace := st₁.trace ++ [.createIssue (.child pay)] }
      match env.createIssue (.child pay) with
      | .error m => (st₂, some (.createFailed m))
      | .ok newKey => ({ st₂ with keyMap := st₂.keyMap ++ [(ch.key, newKey)] }, none)

/-- The child loop itself: children are processed in list order until the
first failure. -/
def foldChildren (env : MigEnv) (epicStart : Day) (newEpicKey : String) :
    List Issue → ChildState → ChildState × Option PyErr
  | [], st => (st, none)
  | ch :: rest, st =>
    match processChild env epicStart newEpicKey st ch with
    | (st', none) => foldChildren env epicStart newEpicKey rest st'
    | (st', some e) => (st', some e)

/-- Link reconstruction (source lines 686 to 698) as the list of
create_issue_link calls the two nested loops issue, in order: for each stored
snapshot entry whose owner key resolves to a truthy new key, and for each of
its records whose far key also resolves, one call preserving the recorded
direction; every other record contributes nothing. -/
def reconstructLinks (linksMap : List (String × List LinkRec))
    (keyMap : List (String × String)) : List LinkCall :=
  linksMap.flatMap fun e =>
    match truthyLookup keyMap e.1 with
    | none => []
    | some newKey =>
      e.2.filterMap fun r =>
        match truthyLookup keyMap r.key with
        | none => none
        | some linkedNewKey =>
          some (if r.direction = .outward
                then ⟨r.type, newKey, linkedNewKey⟩
                else ⟨r.type, linkedNewKey, newKey⟩)

/-- Sequential execution of a list of create_issue_link calls, stopping at
the first failing call. -/
def runLinks (env : MigEnv) : List LinkCall → List RepoCall × Option PyErr
  | [] => ([], none)
  | c :: rest =>
    match env.createIssueLink c with
    | .error m => ([.createIssueLink c], some (.createFailed m))
    | .ok _ =>
      let t := runLinks env rest
      (.createIssueLink c :: t.1, t.2)

/-- Payload of the new Epic (source lines 579 to 586) on the only path where
its construction does not raise: epicStart and epicDue are the parsed
original Epic dates, so epic_duration is their difference and the duedate
entry is the chosen date plus that duration. -/
def new_epic_data (env : MigEnv) (epicStart epicDue : Day) : NewEpicPayload :=
  { project := env.selected_key
    summary := env.epic_fields.summary
    description := env.epic_fields.description
    issuetype := "Epic"
    customfield_10015 := env.new_start_date
    duedate := env.new_start_date + (epicDue - epicStart) }

/-- The Migrate Template handler (source lines 552 to 703): the list of
mutating repository calls issued, in order, and the outcome surfaced to the
operator. When the Epic lacks a truthy original start or due date,
epic_duration keeps its integer initial value 0 and line 585 raises TypeError
on date plus int before any call is made; a fromisoformat failure on either
Epic date raises ValueError first. Otherwise the Epic create call is issued,
then the children of the fresh child search are processed in the order of
ordre_child_issues, then the reconstructed links are created. -/
def migrateTemplate (env : MigEnv) : List RepoCall × Except PyErr Unit :=
  match env.epic_fields.customfield_10015 with
  | none => ([], .error .typeError)
  | some s =>
    match fromiso s with
    | none => ([], .error .valueError)
    | some epicStart =>
      match env.epic_fields.duedate with
      | none => ([], .error .typeError)
      | some d =>
        match fromiso d with
        | none => ([], .error .valueError)
        | some epicDue =>
          let pay := new_epic_data env epicStart epicDue
          let c₀ : RepoCall := .createIssue (.epic pay)
          match env.createIssue (.epic pay) with
          | .error m => ([c₀], .error (.createFailed m))
          | .ok newEpicKey =>
            match get_child_issues_for_epic env.child_search with
            | .error e => ([c₀], .error e)
            | .ok children =>
              match foldChildren env epicStart newEpicKey children ⟨[c₀], [], []⟩ with
              | (stF, some e) => (stF.trace, .error e)
              | (stF, none) =>
                match runLinks env (reconstructLinks stF.linksMap stF.keyMap) with
                | (lt, some e) => (stF.trace ++ lt, .error e)
                | (lt, none) => (stF.trace ++ lt, .ok ())

/-!
Concrete environments used by the closed theorems and witnesses below. Day
numbers stand for calendar dates; for instance 0 may be read as 2024-01-01.
-/

/-- Example child with start day 2, due day 5 and an outward Blocks link. -/
def exChildA : Issue :=
  ⟨"PPT-1",
    { summary := some "A", description := none,
      customfield_10015 := some (.valid 2), duedate := some (.valid 5),
      issuelinks := [.outward "Blocks" "PPT-2"], issuetype_name := some "Task" }⟩

/-- Example child with start day 4, no due date and the mirrored inward
Blocks link. -/
def exChildB : Issue :=
  ⟨"PPT-2",
    { summary := some "B", description := none,
      customfield_10015 := some (.valid 4), duedate := none,
      issuelinks := [.inward "Blocks" "PPT-1"], issuetype_name := some "Task" }⟩

/-- Example Epic fields with start day 0 and due day 10. -/
def exEpicFields : EpicFields :=
  { summary := some "Tmpl", description := none,
    customfield_10015 := some (.valid 0), duedate := some (.valid 10) }

/-- Fully dated example environment; the repository assigns key NP-0 to the
new Epic and key NP plus the child summary to each child. -/
def exEnv : MigEnv :=
  { selected_key := "PROD"
    new_start_date := 100
    epic_fields := exEpicFields
    child_search := ⟨200, "", [exChildB, exChildA]⟩
    issue_types := [⟨"Epic", "1"⟩, ⟨"Task", "3"⟩]
    createIssue := fun p =>
      match p with
      | .epic _ => .ok "NP-0"
      | .child c => .ok ("NP" ++ (c.summary.getD "X"))
    createIssueLink := fun _ => .ok () }

/-- Same environment with the original Epic due date removed. -/
def exEnvNoDue : MigEnv := { exEnv with epic_fields := { exEpicFields with duedate := none } }

/-- Same environment with the original Epic start date removed. -/
def exEnvNoStart : MigEnv :=
  { exEnv with epic_fields := { exEpicFields with customfield_10015 := none } }

/-- Issue dated like 2024-03-01 in the ordering example of the spec. -/
def exIssueMar : Issue := ⟨"mar", ⟨none, none, some (.valid 60), none, [], none⟩⟩

/-- Issue with no start date in the ordering example of the spec. -/
def exIssueMissing : Issue := ⟨"mis", ⟨none, none, none, none, [], none⟩⟩

/-- Issue dated like 2024-01-15 in the ordering example of the spec. -/
def exIssueJan : Issue := ⟨"jan", ⟨none, none, some (.valid 15), none, [], none⟩⟩

/-- Payload created for the first example child in the fully dated example
environment: new start 102, new due 105. -/
def exPayloadA : ChildPayload :=
  { project := "PROD", summary := some "A", description := none,
    issuetype_id := "3", customfield_10014 := "NP-0",
    customfield_10015 := some 102, duedate := some 105 }

/-- Example child whose source type Bug differs from the destination type
bug only by letter case. -/
def exChildBug : Issue :=
  ⟨"PPT-3",
    { summary := some "C", description := none,
      customfield_10015 := none, duedate := none,
      issuelinks := [], issuetype_name := some "Bug" }⟩

/-- Environment whose destination project only offers the type named bug in
lower case. -/
def exEnvBadType : MigEnv :=
  { exEnv with issue_types := [⟨"bug", "10"⟩], child_search := ⟨200, "", [exChildBug]⟩ }

/-- Environment whose repository rejects every create call. -/
def exEnvCreateFail : MigEnv := { exEnv with createIssue := fun _ => .error "boom" }

/-!
Claim C1.
-/

/-- C1, failing input: the claim states that when the Epic has no original
start date the delta is 0 and a child with an original start date still
receives a new start date equal to its own original start date, and that
when the Epic has an original start date the child start is shifted by the
delta regardless of the Epic due date. In the code, whenever the Epic lacks
either original date, epic_duration keeps its integer initial value 0 and
line 585 raises TypeError on adding an int to a date, so the migration
aborts before creating anything: no child is created and none receives any
date. Both environments below contain a child with an original start date. -/
theorem c1_code_bug_epic_date_crash :
    migrateTemplate exEnvNoDue = ([], .error .typeError) ∧
    migrateTemplate exEnvNoStart = ([], .error .typeError) :=
  ⟨rfl, rfl⟩

/-!
Claim C6: the child-ordering function.
-/

/-- C6: ordre_child_issues is a permutation of its input, sorted ascending by
the start-date key; the sort is stable, meaning any two entries already in
key order keep their relative order; and an entry whose start date is
missing or unparsable gets the maximum possible key, hence sorts after every
other entry, malformed values treated exactly like missing ones. -/
theorem c6_ordre_child_issues_spec (l : List Issue) :
    (ordre_child_issues l).Perm l ∧
    List.Pairwise (fun a b => get_start_date a ≤ get_start_date b) (ordre_child_issues l) ∧
    (∀ a b : Issue, get_start_date a ≤ get_start_date b →
        List.Sublist [a, b] l → List.Sublist [a, b] (ordre_child_issues l)) ∧
    (∀ i : Issue,
        (i.fields.customfield_10015 = none ∨
          (∃ s, i.fields.customfield_10015 = some s ∧ fromiso s = none)) →
        get_start_date i = ⊤ ∧ ∀ j : Issue, get_start_date j ≤ get_start_date i) := by
  refine ⟨List.perm_insertionSort _ l, ?_, ?_, ?_⟩
  · exact @List.sorted_insertionSort Issue
      (fun a b => get_start_date a ≤ get_start_date b) _
      ⟨fun a b => le_total _ _⟩ ⟨fun a b c => le_trans⟩ l
  · intro a b hab hsub
    exact List.pair_sublist_insertionSort hab hsub
  · intro i hi
    have hkey : get_start_date i = ⊤ := by
      rcases hi with h | ⟨s, hs, hparse⟩
      · simp [get_start_date, h]
      · simp [get_start_date, hs, hparse]
    exact ⟨hkey, fun j => hkey ▸ le_top⟩

/-- C6 witness: on the spec example with start days for 2024-03-01, missing
and 2024-01-15, the dated pair keeps its fetch order and the undated issue
carries the maximal key. -/
theorem c6_ordre_witness :
    List.Sublist [exIssueMar, exIssueMissing]
      (ordre_child_issues [exIssueMar, exIssueMissing, exIssueJan]) ∧
    get_start_date exIssueMissing = ⊤ :=
  ⟨(c6_ordre_child_issues_spec [exIssueMar, exIssueMissing, exIssueJan]).2.2.1
      exIssueMar exIssueMissing (by decide) (by decide),
    ((c6_ordre_child_issues_spec [exIssueMar, exIssueMissing, exIssueJan]).2.2.2
      exIssueMissing (Or.inl rfl)).1⟩

/-!
Claims C4, C5 and C10: link snapshot and reconstruction.
-/

/-- C4: every recreated link preserves the original type name and direction.
A link recorded outward on child A towards B means the original tracker link
object has A inward and B outward; the snapshot keeps that record, and when
both endpoints resolve in the key map the reconstruction issues a
create_issue_link call with the image of A as inwardIssue and the image of B
as outwardIssue, the same orientation, not flipped; symmetrically an inward
record yields the call with the two images swapped, again the original
orientation. -/
theorem c4_links_preserve_type_and_direction
    (lm : List (String × List LinkRec)) (km : List (String × String))
    (A T B A' B' : String) (recs : List LinkRec)
    (hA : (A, recs) ∈ lm)
    (hA' : truthyLookup km A = some A') (hB' : truthyLookup km B = some B') :
    (∀ links : List RawLink, RawLink.outward T B ∈ links →
        LinkRec.mk T Dir.outward B ∈ stockLinks links) ∧
    (LinkRec.mk T Dir.outward B ∈ recs →
        LinkCall.mk T A' B' ∈ reconstructLinks lm km) ∧
    (LinkRec.mk T Dir.inward B ∈ recs →
        LinkCall.mk T B' A' ∈ reconstructLinks lm km) := by
  refine ⟨?_, ?_, ?_⟩
  · intro links hmem
    exact List.mem_filterMap.2 ⟨RawLink.outward T B, hmem, rfl⟩
  · intro hrec
    refine List.mem_flatMap.2 ⟨(A, recs), hA, ?_⟩
    simp only [hA']
    exact List.mem_filterMap.2 ⟨LinkRec.mk T Dir.outward B, hrec, by simp [hB']⟩
  · intro hrec
    refine List.mem_flatMap.2 ⟨(A, recs), hA, ?_⟩
    simp only [hA']
    exact List.mem_filterMap.2 ⟨LinkRec.mk T Dir.inward B, hrec, by simp [hB']⟩

/-- C4 witness: with the two example children mapped to NPA and NPB, the
outward Blocks record of PPT-1 towards PPT-2 is recreated as the call with
inwardIssue NPA and outwardIssue NPB. -/
theorem c4_links_witness :
    LinkCall.mk "Blocks" "NPA" "NPB" ∈
      reconstructLinks [("PPT-1", [⟨"Blocks", Dir.outward, "PPT-2"⟩])]
        [("PPT-1", "NPA"), ("PPT-2", "NPB")] :=
  (c4_links_preserve_type_and_direction
      [("PPT-1", [⟨"Blocks", Dir.outward, "PPT-2"⟩])]
      [("PPT-1", "NPA"), ("PPT-2", "NPB")]
      "PPT-1" "Blocks" "PPT-2" "NPA" "NPB" [⟨"Blocks", Dir.outward, "PPT-2"⟩]
      (by decide) rfl rfl).2.1 (by decide)

/-- C5: a destination link is created only when both of its endpoints are
images of KeyMap entries, and a snapshot record whose far endpoint does not
resolve in KeyMap is skipped silently: removing such a record does not
change the list of issued create_issue_link calls at all, so no call and no
error can arise from it. -/
theorem c5_link_reconstruction_filter (km : List (String × String)) :
    (∀ lm : List (String × List LinkRec), ∀ c ∈ reconstructLinks lm km,
        (∃ k, truthyLookup km k = some c.inwardIssue) ∧
        (∃ k, truthyLookup km k = some c.outwardIssue)) ∧
    (∀ (l₁ l₂ : List (String × List LinkRec)) (selfKey : String)
        (r₁ r₂ : List LinkRec) (r : LinkRec), truthyLookup km r.key = none →
        reconstructLinks (l₁ ++ (selfKey, r₁ ++ r :: r₂) :: l₂) km
          = reconstructLinks (l₁ ++ (selfKey, r₁ ++ r₂) :: l₂) km) := by
  constructor
  · intro lm c hc
    rcases List.mem_flatMap.1 hc with ⟨e, _, hce⟩
    rcases h : truthyLookup km e.1 with _ | newKey
    · rw [h] at hce
      simp at hce
    · rw [h] at hce
      rcases List.mem_filterMap.1 hce with ⟨r, _, hr⟩
      rcases h' : truthyLookup km r.key with _ | linkedKey
      · rw [h'] at hr
        simp at hr
      · rw [h'] at hr
        simp only [Option.some.injEq] at hr
        rcases hdir : r.direction with _ | _
        · rw [hdir, if_pos rfl] at hr
          exact ⟨⟨e.1, by rw [h, ← hr]⟩, ⟨r.key, by rw [h', ← hr]⟩⟩
        · rw [hdir, if_neg (by simp)] at hr
          exact ⟨⟨r.key, by rw [h', ← hr]⟩, ⟨e.1, by rw [h, ← hr]⟩⟩
  · intro l₁ l₂ selfKey r₁ r₂ r hr
    simp only [reconstructLinks, List.flatMap_append, List.flatMap_cons]
    rcases h : truthyLookup km selfKey with _ | newKey
    · rfl
    · simp only [List.filterMap_append, List.filterMap_cons, hr]

/-- C5 witness: with only two keys mapped, every reconstructed call has both
endpoints in the image of the map, and dropping a record pointing at the
unmigrated key PPT-9 leaves the issued calls unchanged. -/
theorem c5_link_filter_witness :
    ((∃ k, truthyLookup [("PPT-1", "NPA"), ("PPT-2", "NPB")] k = some "NPA") ∧
      (∃ k, truthyLookup [("PPT-1", "NPA"), ("PPT-2", "NPB")] k = some "NPB")) ∧
    reconstructLinks [("PPT-1", [⟨"Blocks", Dir.outward, "PPT-9"⟩, ⟨"Blocks", Dir.outward, "PPT-2"⟩])]
        [("PPT-1", "NPA"), ("PPT-2", "NPB")]
      = reconstructLinks [("PPT-1", [⟨"Blocks", Dir.outward, "PPT-2"⟩])]
          [("PPT-1", "NPA"), ("PPT-2", "NPB")] :=
  ⟨(c5_link_reconstruction_filter [("PPT-1", "NPA"), ("PPT-2", "NPB")]).1
      [("PPT-1", [⟨"Blocks", Dir.outward, "PPT-9"⟩, ⟨"Blocks", Dir.outward, "PPT-2"⟩])]
      (LinkCall.mk "Blocks" "NPA" "NPB") (by decide),
    (c5_link_reconstruction_filter [("PPT-1", "NPA"), ("PPT-2", "NPB")]).2
      [] [] "PPT-1" [] [⟨"Blocks", Dir.outward, "PPT-2"⟩]
      ⟨"Blocks", Dir.outward, "PPT-9"⟩ rfl⟩

/-- C10: a symmetric source link between two migrated children A and B is
stored twice, once as an outward record in the snapshot of A and once as an
inward record in the snapshot of B, and the reconstruction loop issues the
same create_issue_link call at least twice, once while processing each
stored entry. -/
theorem c10_symmetric_link_created_twice
    (l₁ l₂ l₃ : List (String × List LinkRec)) (km : List (String × String))
    (A B A' B' T : String) (recsA recsB : List LinkRec)
    (hA : truthyLookup km A = some A') (hB : truthyLookup km B = some B')
    (hrA : LinkRec.mk T Dir.outward B ∈ recsA)
    (hrB : LinkRec.mk T Dir.inward A ∈ recsB) :
    2 ≤ (reconstructLinks (l₁ ++ (A, recsA) :: l₂ ++ (B, recsB) :: l₃) km).count
          (LinkCall.mk T A' B') := by
  have hmemA : LinkCall.mk T A' B' ∈
      (recsA.filterMap fun r =>
        match truthyLookup km r.key with
        | none => none
        | some linkedNewKey =>
          some (if r.direction = .outward
                then ⟨r.type, A', linkedNewKey⟩
                else ⟨r.type, linkedNewKey, A'⟩)) :=
    List.mem_filterMap.2 ⟨LinkRec.mk T Dir.outward B, hrA, by simp [hB]⟩
  have hmemB : LinkCall.mk T A' B' ∈
      (recsB.filterMap fun r =>
        match truthyLookup km r.key with
        | none => none
        | some linkedNewKey =>
          some (if r.direction = .outward
                then ⟨r.type, B', linkedNewKey⟩
                else ⟨r.type, linkedNewKey, B'⟩)) :=
    List.mem_filterMap.2 ⟨LinkRec.mk T Dir.inward A, hrB, by simp [hA]⟩
  have h1 : 0 < (recsA.filterMap fun r =>
        match truthyLookup km r.key with
        | none => none
        | some linkedNewKey =>
          some (if r.direction = .outward
                then ⟨r.type, A', linkedNewKey⟩
                else ⟨r.type, linkedNewKey, A'⟩)).count (LinkCall.mk T A' B') :=
    List.count_pos_iff.2 hmemA
  have h2 : 0 < (recsB.filterMap fun r =>
        match truthyLookup km r.key with
        | none => none
        | some linkedNewKey =>
          some (if r.direction = .outward
                then ⟨r.type, B', linkedNewKey⟩
                else ⟨r.type, linkedNewKey, B'⟩)).count (LinkCall.mk T A' B') :=
    List.count_pos_iff.2 hmemB
  simp only [reconstructLinks, List.flatMap_append, List.flatMap_cons, List.count_append, hA, hB]
  simp only [reconstructLinks, hA, hB] at h1 h2
  omega

/-- C10 witness: the mirrored Blocks records of the two example children
produce the identical call twice. -/
theorem c10_symmetric_link_witness :
    2 ≤ (reconstructLinks
          [("PPT-1", [⟨"Blocks", Dir.outward, "PPT-2"⟩]),
           ("PPT-2", [⟨"Blocks", Dir.inward, "PPT-1"⟩])]
          [("PPT-1", "NPA"), ("PPT-2", "NPB")]).count (LinkCall.mk "Blocks" "NPA" "NPB") :=
  c10_symmetric_link_created_twice
    [] [] [] [("PPT-1", "NPA"), ("PPT-2", "NPB")]
    "PPT-1" "PPT-2" "NPA" "NPB" "Blocks"
    [⟨"Blocks", Dir.outward, "PPT-2"⟩] [⟨"Blocks", Dir.inward, "PPT-1"⟩]
    rfl rfl (by decide) (by decide)

/-!
Claim C8: error surfacing of search and fetch calls.
-/

/-- C8, failing input: on any non-200 search response, the two search
functions used by the program abort, but the exception they raise is the
UnboundLocalError produced by reading the never-assigned local variable data
at lines 189 and 216; the raw status code and response body are only printed
to the console and appear nowhere in the surfaced error message. The unused
helper rest_api_get is the only function that surfaces them as claimed. -/
theorem c8_code_bug_status_not_surfaced :
    get_child_issues_for_epic ⟨500, "Internal Server Error", []⟩
        = .error (.unboundLocal "data") ∧
    get_jql_template_epic ⟨500, "Internal Server Error", []⟩
        = .error (.unboundLocal "data") ∧
    occursIn "500".toList (pyErrMsg (.unboundLocal "data")).toList = false ∧
    occursIn "Internal Server Error".toList (pyErrMsg (.unboundLocal "data")).toList = false ∧
    rest_api_get ⟨500, "Internal Server Error", []⟩
        = .error (.apiError 500 "Internal Server Error") ∧
    occursIn "500".toList (pyErrMsg (.apiError 500 "Internal Server Error")).toList = true :=
  ⟨rfl, rfl, by decide, by decide, rfl, by decide⟩

/-!
Machinery for the executor-level claims C2, C3, C7 and C9.
-/

/-- Unfolding lemma for processChild when the date plan raises. -/
lemma processChild_planError (env : MigEnv) (es : Day) (k : String)
    (st : ChildState) (ch : Issue) (e : PyErr)
    (h : childPlan env.new_start_date es ch = .error e) :
    processChild env es k st ch =
      ({ st with linksMap := st.linksMap ++ [(ch.key, stockLinks ch.fields.issuelinks)] },
        some e) := by
  simp [processChild, h]

/-- Unfolding lemma for processChild when type resolution fails. -/
lemma processChild_resolveNone (env : MigEnv) (es : Day) (k : String)
    (st : ChildState) (ch : Issue) (plan : Option Day × Option Day)
    (hp : childPlan env.new_start_date es ch = .ok plan)
    (hr : resolveTypeId env.issue_types ch.fields.issuetype_name = none) :
    processChild env es k st ch =
      ({ st with linksMap := st.linksMap ++ [(ch.key, stockLinks ch.fields.issuelinks)] },
        some (.unsupportedIssueType ch.fields.issuetype_name env.selected_key)) := by
  simp [processChild, hp, hr]

/-- Unfolding lemma for processChild when the create call fails. -/
lemma processChild_createError (env : MigEnv) (es : Day) (k : String)
    (st : ChildState) (ch : Issue) (plan : Option Day × Option Day) (tid m : String)
    (hp : childPlan env.new_start_date es ch = .ok plan)
    (hr : resolveTypeId env.issue_types ch.fields.issuetype_name = some tid)
    (hc : env.createIssue (.child (mkChildPayload env k tid plan ch)) = .error m) :
    processChild env es k st ch =
      ({ trace := st.trace ++ [.createIssue (.child (mkChildPayload env k tid plan ch))],
         linksMap := st.linksMap ++ [(ch.key, stockLinks ch.fields.issuelinks)],
         keyMap := st.keyMap },
        some (.createFailed m)) := by
  simp [processChild, hp, hr, hc]

/-- Unfolding lemma for processChild when the create call succeeds. -/
lemma processChild_ok (env : MigEnv) (es : Day) (k : String)
    (st : ChildState) (ch : Issue) (plan : Option Day × Option Day) (tid nk : String)
    (hp : childPlan env.new_start_date es ch = .ok plan)
    (hr : resolveTypeId env.issue_types ch.fields.issuetype_name = some tid)
    (hc : env.createIssue (.child (mkChildPayload env k tid plan ch)) = .ok nk) :
    processChild env es k st ch =
      ({ trace := st.trace ++ [.createIssue (.child (mkChildPayload env k tid plan ch))],
         linksMap := st.linksMap ++ [(ch.key, stockLinks ch.fields.issuelinks)],
         keyMap := st.keyMap ++ [(ch.key, nk)] },
        none) := by
  simp [processChild, hp, hr, hc]

/-- The child loop splits over list append. -/
lemma foldChildren_append (env : MigEnv) (es : Day) (k : String)
    (l₁ l₂ : List Issue) (st : ChildState) :
    foldChildren env es k (l₁ ++ l₂) st =
      match foldChildren env es k l₁ st with
      | (st', none) => foldChildren env es k l₂ st'
      | (st', some e) => (st', some e) := by
  induction l₁ generalizing st with
  | nil => simp [foldChildren]
  | cons ch rest ih =>
    simp only [List.cons_append, foldChildren]
    rcases h : processChild env es k st ch with ⟨st', e?⟩
    rcases e? with _ | e
    · exact ih st'
    · rfl

/-- Trace charaterisation of the child loop: some order-preserved prefix of
the children gives rise to one child create call each, recorded in order
after the incoming trace; each such call carries the payload built from that
child by mkChildPayload with its computed date plan and resolved type id;
and when the loop finishes without error the prefix is the whole list. -/
lemma foldChildren_trace_spec (env : MigEnv) (es : Day) (k : String) :
    ∀ (chs : List Issue) (st : ChildState),
      ∃ (ps : List (Issue × RepoCall)) (rest : List Issue),
        chs = ps.map Prod.fst ++ rest ∧
        (foldChildren env es k chs st).1.trace = st.trace ++ ps.map Prod.snd ∧
        (∀ pr ∈ ps, ∃ plan tid,
            childPlan env.new_start_date es pr.1 = .ok plan ∧
            resolveTypeId env.issue_types pr.1.fields.issuetype_name = some tid ∧
            pr.2 = RepoCall.createIssue (.child (mkChildPayload env k tid plan pr.1))) ∧
        ((foldChildren env es k chs st).2 = none → rest = [])
  | [], st => ⟨[], [], rfl, by simp [foldChildren], by simp, fun _ => rfl⟩
  | ch :: chs, st => by
    rcases hplan : childPlan env.new_start_date es ch with e | plan
    · have hpc := processChild_planError env es k st ch e hplan
      exact ⟨[], ch :: chs, by simp, by simp [foldChildren, hpc], by simp,
        by simp [foldChildren, hpc]⟩
    · rcases hres : resolveTypeId env.issue_types ch.fields.issuetype_name with _ | tid
      · have hpc := processChild_resolveNone env es k st ch plan hplan hres
        exact ⟨[], ch :: chs, by simp, by simp [foldChildren, hpc], by simp,
          by simp [foldChildren, hpc]⟩
      · rcases hcr : env.createIssue (.child (mkChildPayload env k tid plan ch)) with m | nk
        · have hpc := processChild_createError env es k st ch plan tid m hplan hres hcr
          refine ⟨[(ch, .createIssue (.child (mkChildPayload env k tid plan ch)))], chs,
            by simp, by simp [foldChildren, hpc], ?_, by simp [foldChildren, hpc]⟩
          intro pr hpr
          rcases List.mem_singleton.1 hpr with rfl
          exact ⟨plan, tid, hplan, hres, rfl⟩
        · have hpc := processChild_ok env es k st ch plan tid nk hplan hres hcr
          obtain ⟨ps, rest, hchs, htrace, hprov, hdone⟩ :=
            foldChildren_trace_spec env es k chs
              { trace := st.trace ++ [.createIssue (.child (mkChildPayload env k tid plan ch))],
                linksMap := st.linksMap ++ [(ch.key, stockLinks ch.fields.issuelinks)],
                keyMap := st.keyMap ++ [(ch.key, nk)] }
          refine ⟨(ch, .createIssue (.child (mkChildPayload env k tid plan ch))) :: ps, rest,
            ?_, ?_, ?_, ?_⟩
          · simpa using congrArg (List.cons ch) hchs
          · simp only [foldChildren, hpc]
            simpa using htrace
          · intro pr hpr
            rcases List.mem_cons.1 hpr with rfl | hmem
            · exact ⟨plan, tid, hplan, hres, rfl⟩
            · exact hprov pr hmem
          · simp only [foldChildren, hpc]
            exact hdone

/-- Every repository call issued during the link phase is a
create_issue_link call. -/
lemma runLinks_shape (env : MigEnv) :
    ∀ (cs : List LinkCall), ∀ c ∈ (runLinks env cs).1,
      ∃ l, c = RepoCall.createIssueLink l
  | [], c => by simp [runLinks]
  | lc :: rest, c => by
    rcases h : env.createIssueLink lc with m | u
    · intro hc
      simp only [runLinks, h] at hc
      rcases List.mem_singleton.1 hc with rfl
      exact ⟨lc, rfl⟩
    · intro hc
      simp only [runLinks, h] at hc
      rcases List.mem_cons.1 hc with rfl | hmem
      · exact ⟨lc, rfl⟩
      · exact runLinks_shape env rest c hmem

/-- The child search returns the sorted decoded issues when it returns at
all. -/
lemma get_child_issues_ok (resp : HttpResponse) (l : List Issue)
    (h : get_child_issues_for_epic resp = .ok l) :
    l = ordre_child_issues resp.issues := by
  by_cases hs : resp.status = 200
  · simp only [get_child_issues_for_epic, hs, if_pos] at h
    exact (Except.ok.injEq _ _ ▸ congrArg id h).symm ▸ (Except.ok.inj h).symm
  · simp [get_child_issues_for_epic, hs] at h

/-- Name matching over the destination issue types finds nothing when no
type name is equal, under exact case-sensitive string equality, to the
source type name. -/
lemma resolveTypeId_eq_none_of_no_match (types : List IssueType) (name? : Option String)
    (h : ∀ t ∈ types, some t.name ≠ name?) :
    resolveTypeId types name? = none := by
  have hfind : types.find? (fun t => some t.name == name?) = none := by
    refine List.find?_eq_none.2 fun t ht => ?_
    simpa using h t ht
  simp [resolveTypeId, hfind]

/-- Case analysis of a successful child date plan: the new due date is
present exactly when both original dates are, it then equals the new start
plus the original duration, and the new start is present exactly when the
original start is, then equal to the chosen date plus the delta of the
child. -/
lemma childPlan_ok_spec (ns es : Day) (ch : Issue) (sp dp : Option Day)
    (h : childPlan ns es ch = .ok (sp, dp)) :
    (dp.isSome ↔ (ch.fields.customfield_10015.isSome ∧ ch.fields.duedate.isSome)) ∧
    (∀ dv, dp = some dv → ∃ sv s cs d dd,
        sp = some sv ∧
        ch.fields.customfield_10015 = some s ∧ fromiso s = some cs ∧
        ch.fields.duedate = some d ∧ fromiso d = some dd ∧
        dv = sv + (dd - cs)) ∧
    (sp.isSome ↔ ch.fields.customfield_10015.isSome) ∧
    (∀ sv, sp = some sv → ∃ s cs,
        ch.fields.customfield_10015 = some s ∧ fromiso s = some cs ∧
        sv = ns + (cs - es)) := by
  rcases hs : ch.fields.customfield_10015 with _ | s
  · simp only [childPlan, hs, Except.ok.injEq, Prod.mk.injEq] at h
    rcases h with ⟨h1, h2⟩
    subst h1; subst h2
    simp [hs]
  · rcases hps : fromiso s with _ | cs
    · simp [childPlan, hs, hps] at h
    · rcases hd : ch.fields.duedate with _ | d
      · simp only [childPlan, hs, hps, hd, Except.ok.injEq, Prod.mk.injEq] at h
        rcases h with ⟨h1, h2⟩
        subst h1; subst h2
        refine ⟨by simp, by simp, by simp, ?_⟩
        intro sv hsv
        exact ⟨s, cs, rfl, hps, by simpa using hsv.symm⟩
      · rcases hpd : fromiso d with _ | dd
        · simp [childPlan, hs, hps, hd, hpd] at h
        · simp only [childPlan, hs, hps, hd, hpd, Except.ok.injEq, Prod.mk.injEq] at h
          rcases h with ⟨h1, h2⟩
          subst h1; subst h2
          refine ⟨by simp, ?_, by simp, ?_⟩
          · intro dv hdv
            exact ⟨ns + (cs - es), s, cs, d, dd, rfl, rfl, hps, rfl, hpd,
              by simpa using hdv.symm⟩
          · intro sv hsv
            exact ⟨s, cs, rfl, hps, by simpa using hsv.symm⟩

/-- Provenance of every create_issue call of a migration run: the Epic
original dates were present and parsed, and the payload is either exactly
the new Epic payload or the payload built for some fetched child from its
date plan and resolved type id. -/
lemma migrateTemplate_createIssue_spec (env : MigEnv) (p : Payload)
    (hp : RepoCall.createIssue p ∈ (migrateTemplate env).1) :
    ∃ s cs d dd, env.epic_fields.customfield_10015 = some s ∧ fromiso s = some cs ∧
      env.epic_fields.duedate = some d ∧ fromiso d = some dd ∧
      (p = .epic (new_epic_data env cs dd) ∨
        (∃ ch plan tid nk, ch ∈ env.child_search.issues ∧
          childPlan env.new_start_date cs ch = .ok plan ∧
          resolveTypeId env.issue_types ch.fields.issuetype_name = some tid ∧
          p = .child (mkChildPayload env nk tid plan ch))) := by
  rcases hs : env.epic_fields.customfield_10015 with _ | s
  · simp [migrateTemplate, hs] at hp
  · rcases hcs : fromiso s with _ | cs
    · simp [migrateTemplate, hs, hcs] at hp
    · rcases hd : env.epic_fields.duedate with _ | d
      · simp [migrateTemplate, hs, hcs, hd] at hp
      · rcases hdd : fromiso d with _ | dd
        · simp [migrateTemplate, hs, hcs, hd, hdd] at hp
        · refine ⟨s, cs, d, dd, rfl, hcs, rfl, hdd, ?_⟩
          rcases hcr : env.createIssue (.epic (new_epic_data env cs dd)) with m | nk
          · simp only [migrateTemplate, hs, hcs, hd, hdd, hcr, List.mem_singleton] at hp
            exact Or.inl (by injection hp)
          · rcases hfetch : get_child_issues_for_epic env.child_search with e | children
            · simp only [migrateTemplate, hs, hcs, hd, hdd, hcr, hfetch,
                List.mem_singleton] at hp
              exact Or.inl (by injection hp)
            · have hchildren := get_child_issues_ok env.child_search children hfetch
              obtain ⟨ps, rest, hchs, htrace, hprov, _⟩ :=
                foldChildren_trace_spec env cs nk children
                  ⟨[.createIssue (.epic (new_epic_data env cs dd))], [], []⟩
              rcases hfold : foldChildren env cs nk children
                  ⟨[.createIssue (.epic (new_epic_data env cs dd))], [], []⟩ with ⟨stF, e?⟩
              rw [hfold] at htrace
              have hmem_of_stF : RepoCall.createIssue p ∈ stF.trace →
                  p = .epic (new_epic_data env cs dd) ∨
                    (∃ ch plan tid nk', ch ∈ env.child_search.issues ∧
                      childPlan env.new_start_date cs ch = .ok plan ∧
                      resolveTypeId env.issue_types ch.fields.issuetype_name = some tid ∧
                      p = .child (mkChildPayload env nk' tid plan ch)) := by
                intro hmem
                rw [htrace] at hmem
                rcases List.mem_append.1 hmem with h₀ | hps
                · exact Or.inl (by injection List.mem_singleton.1 h₀)
                · rcases List.mem_map.1 hps with ⟨pr, hpr, heq⟩
                  obtain ⟨plan, tid, hplan, hres, hcall⟩ := hprov pr hpr
                  rw [hcall] at heq
                  have hch : pr.1 ∈ children := by
                    rw [hchs]
                    exact List.mem_append.2 (Or.inl (List.mem_map.2 ⟨pr, hpr, rfl⟩))
                  have hchi : pr.1 ∈ env.child_search.issues := by
                    rw [hchildren] at hch
                    exact (List.perm_insertionSort _ env.child_search.issues).mem_iff.1 hch
                  exact Or.inr ⟨pr.1, plan, tid, nk, hchi, hplan, hres, by injection heq.symm⟩
              rcases e? with _ | e
              · rcases hrl : runLinks env (reconstructLinks stF.linksMap stF.keyMap)
                    with ⟨lt, le?⟩
                have htraceEq : (migrateTemplate env).1 = stF.trace ++ lt := by
                  rcases le? with _ | e <;>
                    simp [migrateTemplate, hs, hcs, hd, hdd, hcr, hfetch, hfold, hrl]
                rw [htraceEq] at hp
                rcases List.mem_append.1 hp with hmem | hlt
                · exact hmem_of_stF hmem
                · obtain ⟨l, hl⟩ := runLinks_shape env
                    (reconstructLinks stF.linksMap stF.keyMap)
                    (RepoCall.createIssue p) (by rw [hrl]; exact hlt)
                  exact absurd hl (by simp)
              · have htraceErr : (migrateTemplate env).1 = stF.trace := by
                  simp [migrateTemplate, hs, hcs, hd, hdd, hcr, hfetch, hfold]
                exact hmem_of_stF (htraceErr ▸ hp)

/-!
Claim C2: due-date persistence.
-/

/-- C2: for every issue-create call of a migration run, a due date is in the
payload if and only if the original start and due dates of the corresponding
source entity are both present, and it then equals the new start date plus
the original duration in days. The created Epic always satisfies both sides:
any run that reaches its create call had both Epic original dates, and its
payload carries the chosen start date and that date plus the Epic original
duration. A created child carries a due date exactly when its own original
start and due dates are present, equal to its new start plus its original
duration; the 7-day placeholder of the chart view appears in no payload,
every persisted due date being given by this formula. -/
theorem c2_due_date_persistence (env : MigEnv) (p : Payload)
    (hp : RepoCall.createIssue p ∈ (migrateTemplate env).1) :
    (∀ ep, p = .epic ep →
      ∃ s cs d dd, env.epic_fields.customfield_10015 = some s ∧ fromiso s = some cs ∧
        env.epic_fields.duedate = some d ∧ fromiso d = some dd ∧
        ep.customfield_10015 = env.new_start_date ∧
        ep.duedate = env.new_start_date + (dd - cs)) ∧
    (∀ cp, p = .child cp →
      ∃ ch, ch ∈ env.child_search.issues ∧
        (cp.duedate.isSome ↔
          (ch.fields.customfield_10015.isSome ∧ ch.fields.duedate.isSome)) ∧
        (∀ dv, cp.duedate = some dv → ∃ sv s cs d dd,
          cp.customfield_10015 = some sv ∧
          ch.fields.customfield_10015 = some s ∧ fromiso s = some cs ∧
          ch.fields.duedate = some d ∧ fromiso d = some dd ∧
          dv = sv + (dd - cs))) := by
  obtain ⟨s, cs, d, dd, hs, hcs, hd, hdd, hdisj⟩ :=
    migrateTemplate_createIssue_spec env p hp
  constructor
  · intro ep hep
    rcases hdisj with heq | ⟨ch, plan, tid, nk, _, _, _, heq⟩
    · rw [hep] at heq
      have hep' : ep = new_epic_data env cs dd := by injection heq
      exact ⟨s, cs, d, dd, hs, hcs, hd, hdd, by rw [hep']; rfl, by rw [hep']; rfl⟩
    · rw [hep] at heq
      exact absurd heq (by simp)
  · intro cp hcp
    rcases hdisj with heq | ⟨ch, plan, tid, nk, hchi, hplan, hres, heq⟩
    · rw [hcp] at heq
      exact absurd heq (by simp)
    · rw [hcp] at heq
      have hcp' : cp = mkChildPayload env nk tid plan ch := by injection heq
      rcases plan with ⟨sp, dp⟩
      obtain ⟨hiff, hdue, _, _⟩ := childPlan_ok_spec env.new_start_date cs ch sp dp hplan
      refine ⟨ch, hchi, ?_, ?_⟩
      · rw [hcp']
        exact hiff
      · intro dv hdv
        rw [hcp'] at hdv
        obtain ⟨sv, s', cs', d', dd', hsp, hchs, hchcs, hchd, hchdd, hval⟩ := hdue dv hdv
        exact ⟨sv, s', cs', d', dd', by rw [hcp']; exact hsp, hchs, hchcs, hchd, hchdd, hval⟩

/-- C2 witness: the payload of the first example child is created by the
example run and its persisted due date obeys the characterisation. -/
theorem c2_due_date_witness :
    ∃ ch, ch ∈ exEnv.child_search.issues ∧
      (exPayloadA.duedate.isSome ↔
        (ch.fields.customfield_10015.isSome ∧ ch.fields.duedate.isSome)) ∧
      (∀ dv, exPayloadA.duedate = some dv → ∃ sv s cs d dd,
        exPayloadA.customfield_10015 = some sv ∧
        ch.fields.customfield_10015 = some s ∧ fromiso s = some cs ∧
        ch.fields.duedate = some d ∧ fromiso d = some dd ∧
        dv = sv + (dd - cs)) :=
  (c2_due_date_persistence exEnv (.child exPayloadA) (by decide)).2 exPayloadA rfl

/-!
Claim C3: duration preservation.
-/

/-- C3: when the Epic has both original dates, the created Epic satisfies
new due minus new start equals original due minus original start, for any
operator-chosen new start date; and every created child whose payload has
both computed dates satisfies the same duration-preservation equation with
respect to its own original dates. -/
theorem c3_duration_preserved (env : MigEnv) :
    (∀ ep s cs d dd,
        env.epic_fields.customfield_10015 = some s → fromiso s = some cs →
        env.epic_fields.duedate = some d → fromiso d = some dd →
        RepoCall.createIssue (.epic ep) ∈ (migrateTemplate env).1 →
        ep.duedate - ep.customfield_10015 = dd - cs) ∧
    (∀ cp sv dv,
        RepoCall.createIssue (.child cp) ∈ (migrateTemplate env).1 →
        cp.customfield_10015 = some sv → cp.duedate = some dv →
        ∃ ch s cs d dd, ch ∈ env.child_search.issues ∧
          ch.fields.customfield_10015 = some s ∧ fromiso s = some cs ∧
          ch.fields.duedate = some d ∧ fromiso d = some dd ∧
          dv - sv = dd - cs) := by
  constructor
  · intro ep s cs d dd hs hcs hd hdd hmem
    obtain ⟨s', cs', d', dd', hs', hcs', hd', hdd', hdisj⟩ :=
      migrateTemplate_createIssue_spec env (.epic ep) hmem
    rcases hdisj with heq | ⟨ch, plan, tid, nk, _, _, _, heq⟩
    · have hep : ep = new_epic_data env cs' dd' := by injection heq
      have hss : s = s' := by rw [hs] at hs'; injection hs'
      have hdds : d = d' := by rw [hd] at hd'
                               injection hd'
      rw [hss] at hcs
      rw [hcs] at hcs'
      rw [hdds] at hdd
      rw [hdd] at hdd'
      have h1 : cs = cs' := by injection hcs'
      have h2 : dd = dd' := by injection hdd'
      rw [hep, ← h1, ← h2]
      simp [new_epic_data]
    · exact absurd heq (by simp)
  · intro cp sv dv hmem hsv hdv
    obtain ⟨s', cs', d', dd', hs', hcs', hd', hdd', hdisj⟩ :=
      migrateTemplate_createIssue_spec env (.child cp) hmem
    rcases hdisj with heq | ⟨ch, plan, tid, nk, hchi, hplan, hres, heq⟩
    · exact absurd heq (by simp)
    · have hcp : cp = mkChildPayload env nk tid plan ch := by injection heq
      rcases plan with ⟨sp, dp⟩
      obtain ⟨_, hdue, _, _⟩ := childPlan_ok_spec env.new_start_date cs' ch sp dp hplan
      rw [hcp] at hdv
      obtain ⟨sv', s, cs, d, dd, hsp, hchs, hchcs, hchd, hchdd, hval⟩ := hdue dv hdv
      rw [hcp] at hsv
      have hsv' : sv = sv' := by
        have h0 : sp = some sv := hsv
        rw [h0] at hsp
        injection hsp
      refine ⟨ch, s, cs, d, dd, hchi, hchs, hchcs, hchd, hchdd, ?_⟩
      rw [hval, hsv']
      ring

/-- C3 witness: the example Epic with original duration 10 days migrated to
the chosen start 100 keeps duration 10. -/
theorem c3_duration_witness :
    (new_epic_data exEnv 0 10).duedate - (new_epic_data exEnv 0 10).customfield_10015
      = 10 - 0 :=
  (c3_duration_preserved exEnv).1 (new_epic_data exEnv 0 10)
    (.valid 0) 0 (.valid 10) 10 rfl rfl rfl rfl (by decide)

/-!
Claim C7: unsupported issue type aborts the run.
-/

/-- C7: destination type resolution compares names by exact case-sensitive
string equality, and when no destination type name equals the source type
name of a child whose plan computed, the run stops at that child with the
distinct unsupported-issue-type error: the surfaced outcome is that error,
and the issued calls are exactly those made before the failing child, so no
further child create call is issued. -/
theorem c7_unsupported_issue_type_aborts (env : MigEnv)
    (s d : DateStr) (cs dd : Day) (newEpicKey : String)
    (pre : List Issue) (c : Issue) (post : List Issue)
    (st' : ChildState) (plan : Option Day × Option Day)
    (hs : env.epic_fields.customfield_10015 = some s)
    (hcs : fromiso s = some cs)
    (hd : env.epic_fields.duedate = some d)
    (hdd : fromiso d = some dd)
    (hcreate : env.createIssue (.epic (new_epic_data env cs dd)) = .ok newEpicKey)
    (hstatus : env.child_search.status = 200)
    (hsorted : ordre_child_issues env.child_search.issues = pre ++ c :: post)
    (hpre : foldChildren env cs newEpicKey pre
        ⟨[.createIssue (.epic (new_epic_data env cs dd))], [], []⟩ = (st', none))
    (hplan : childPlan env.new_start_date cs c = .ok plan)
    (hnomatch : ∀ t ∈ env.issue_types, some t.name ≠ c.fields.issuetype_name) :
    migrateTemplate env =
      (st'.trace, .error (.unsupportedIssueType c.fields.issuetype_name env.selected_key)) := by
  have hres := resolveTypeId_eq_none_of_no_match env.issue_types c.fields.issuetype_name hnomatch
  have hfetch : get_child_issues_for_epic env.child_search = .ok (pre ++ c :: post) := by
    simp [get_child_issues_for_epic, hstatus, ← hsorted]
  have hpc := processChild_resolveNone env cs newEpicKey st' c plan hplan hres
  have hfold : foldChildren env cs newEpicKey (pre ++ c :: post)
      ⟨[.createIssue (.epic (new_epic_data env cs dd))], [], []⟩ =
      ({ st' with linksMap := st'.linksMap ++ [(c.key, stockLinks c.fields.issuelinks)] },
        some (.unsupportedIssueType c.fields.issuetype_name env.selected_key)) := by
    rw [foldChildren_append, hpre]
    simp [foldChildren, hpc]
  simp [migrateTemplate, hs, hcs, hd, hdd, hcreate, hfetch, hfold]

/-- C7 witness: a child of type Bug against a destination offering only the
lower-case name bug aborts the run right after the Epic create call with the
unsupported-issue-type error, name matching being case-sensitive. -/
theorem c7_unsupported_type_witness :
    migrateTemplate exEnvBadType =
      ([RepoCall.createIssue (.epic (new_epic_data exEnvBadType 0 10))],
        .error (.unsupportedIssueType (some "Bug") "PROD")) :=
  c7_unsupported_issue_type_aborts exEnvBadType
    (.valid 0) (.valid 10) 0 10 "NP-0" [] exChildBug []
    ⟨[.createIssue (.epic (new_epic_data exEnvBadType 0 10))], [], []⟩ (none, none)
    rfl rfl rfl rfl rfl rfl (by decide) rfl rfl (by decide)

/-!
Claim C9: strictly sequential execution order.
-/

/-- C9: the mutating repository calls of a run are strictly sequential and
phased: the whole trace decomposes as Epic create calls, then one create
call per child taken from an order-preserved prefix of the child ordering,
then create-link calls, with no interleaving; and when the single Epic
create call fails, the run aborts at once with the surfaced create failure,
the trace being exactly that one call, so no child issue is created. -/
theorem c9_sequential_execution (env : MigEnv) :
    (∀ s cs d dd m,
        env.epic_fields.customfield_10015 = some s → fromiso s = some cs →
        env.epic_fields.duedate = some d → fromiso d = some dd →
        env.createIssue (.epic (new_epic_data env cs dd)) = .error m →
        migrateTemplate env =
          ([RepoCall.createIssue (.epic (new_epic_data env cs dd))],
            .error (.createFailed m))) ∧
    (∃ (tE tL : List RepoCall) (ps : List (Issue × RepoCall)) (rest : List Issue),
      (migrateTemplate env).1 = tE ++ ps.map Prod.snd ++ tL ∧
      (∀ c ∈ tE, ∃ ep, c = RepoCall.createIssue (Payload.epic ep)) ∧
      ordre_child_issues env.child_search.issues = ps.map Prod.fst ++ rest ∧
      (∀ pr ∈ ps, ∃ es plan tid nk,
          childPlan env.new_start_date es pr.1 = .ok plan ∧
          resolveTypeId env.issue_types pr.1.fields.issuetype_name = some tid ∧
          pr.2 = RepoCall.createIssue (.child (mkChildPayload env nk tid plan pr.1))) ∧
      (∀ c ∈ tL, ∃ l, c = RepoCall.createIssueLink l)) := by
  constructor
  · intro s cs d dd m hs hcs hd hdd hcr
    simp [migrateTemplate, hs, hcs, hd, hdd, hcr]
  · rcases hs : env.epic_fields.customfield_10015 with _ | s
    · exact ⟨[], [], [], ordre_child_issues env.child_search.issues,
        by simp [migrateTemplate, hs], by simp, by simp, by simp, by simp⟩
    · rcases hcs : fromiso s with _ | cs
      · exact ⟨[], [], [], ordre_child_issues env.child_search.issues,
          by simp [migrateTemplate, hs, hcs], by simp, by simp, by simp, by simp⟩
      · rcases hd : env.epic_fields.duedate with _ | d
        · exact ⟨[], [], [], ordre_child_issues env.child_search.issues,
            by simp [migrateTemplate, hs, hcs, hd], by simp, by simp, by simp, by simp⟩
        · rcases hdd : fromiso d with _ | dd
          · exact ⟨[], [], [], ordre_child_issues env.child_search.issues,
              by simp [migrateTemplate, hs, hcs, hd, hdd], by simp, by simp, by simp, by simp⟩
          · rcases hcr : env.createIssue (.epic (new_epic_data env cs dd)) with m | nk
            · exact ⟨[.createIssue (.epic (new_epic_data env cs dd))], [], [],
                ordre_child_issues env.child_search.issues,
                by simp [migrateTemplate, hs, hcs, hd, hdd, hcr],
                by simp, by simp, by simp, by simp⟩
            · rcases hfetch : get_child_issues_for_epic env.child_search with e | children
              · exact ⟨[.createIssue (.epic (new_epic_data env cs dd))], [], [],
                  ordre_child_issues env.child_search.issues,
                  by simp [migrateTemplate, hs, hcs, hd, hdd, hcr, hfetch],
                  by simp, by simp, by simp, by simp⟩
              · have hchildren := get_child_issues_ok env.child_search children hfetch
                obtain ⟨ps, rest, hchs, htrace, hprov, _⟩ :=
                  foldChildren_trace_spec env cs nk children
                    ⟨[.createIssue (.epic (new_epic_data env cs dd))], [], []⟩
                rcases hfold : foldChildren env cs nk children
                    ⟨[.createIssue (.epic (new_epic_data env cs dd))], [], []⟩ with ⟨stF, e?⟩
                rw [hfold] at htrace
                have hprov' : ∀ pr ∈ ps, ∃ es plan tid nk',
                    childPlan env.new_start_date es pr.1 = .ok plan ∧
                    resolveTypeId env.issue_types pr.1.fields.issuetype_name = some tid ∧
                    pr.2 = RepoCall.createIssue (.child (mkChildPayload env nk' tid plan pr.1)) := by
                  intro pr hpr
                  obtain ⟨plan, tid, hplan, hres, hcall⟩ := hprov pr hpr
                  exact ⟨cs, plan, tid, nk, hplan, hres, hcall⟩
                have hord : ordre_child_issues env.child_search.issues
                    = ps.map Prod.fst ++ rest := by rw [← hchildren]; exact hchs
                rcases e? with _ | e
                · rcases hrl : runLinks env (reconstructLinks stF.linksMap stF.keyMap)
                      with ⟨lt, le?⟩
                  refine ⟨[.createIssue (.epic (new_epic_data env cs dd))], lt, ps, rest,
                    ?_, by simp, hord, hprov', ?_⟩
                  · have htr : (migrateTemplate env).1 = stF.trace ++ lt := by
                      rcases le? with _ | e <;>
                        simp [migrateTemplate, hs, hcs, hd, hdd, hcr, hfetch, hfold, hrl]
                    rw [htr, htrace]
                  · intro c hc
                    exact runLinks_shape env (reconstructLinks stF.linksMap stF.keyMap) c
                      (by rw [hrl]; exact hc)
                · refine ⟨[.createIssue (.epic (new_epic_data env cs dd))], [], ps, rest,
                    ?_, by simp, hord, hprov', by simp⟩
                  have htr : (migrateTemplate env).1 = stF.trace := by
                    simp [migrateTemplate, hs, hcs, hd, hdd, hcr, hfetch, hfold]
                  rw [htr, htrace]
                  simp

/-- C9 witness: when the Epic create call fails, the trace is exactly that
single call and the run surfaces the create failure, no child being
created. -/
theorem c9_epic_failure_witness :
    migrateTemplate exEnvCreateFail =
      ([RepoCall.createIssue (.epic (new_epic_data exEnvCreateFail 0 10))],
        .error (.createFailed "boom")) :=
  (c9_sequential_execution exEnvCreateFail).1 (.valid 0) 0 (.valid 10) 10 "boom"
    rfl rfl rfl rfl rfl

end TemplateMigration
